import Mathlib

/-!
Shallow embedding of the federated literature-search core of the `sciena`
repository (`src/data_acquisition/multi_database_client.py` and the evidence
grader of `src/ai_processing/enhanced_summary_generator.py`), together with
theorems settling the specification claims about it.

Modelling conventions:
* Python strings are Lean `String`s; character classes (`\s`, `[A-Za-z]`,
  `\d`) are modelled over their ASCII ranges, matching every string constant
  appearing in the source.
* Python floats are modelled as `ℚ`; no claim below depends on rounding.
* `hashlib.md5(...).hexdigest()` is an external library function; the model
  takes it as an explicit parameter `md5hex : String → String` (its only
  property used by the code is that it is a function of its input).
* Network I/O is mocked: the orchestrators take the adapter behaviour as an
  explicit function `(database, term, maxResults) ↦ records`.
-/

namespace Sciena

/-- Python whitespace class (`\s` over ASCII, as used by `str.strip`,
`str.split` and the `re` substitutions in the source). -/
def isWsChar (c : Char) : Bool :=
  c == ' ' || c == '\t' || c == '\n' || c == '\r' || c == '\x0b' || c == '\x0c'

/-- Does `p` occur as a leading part of `l`? Used to implement Python's
substring operator and `str.startswith`. -/
def substrAt : List Char → List Char → Bool
  | [], _ => true
  | _ :: _, [] => false
  | a :: p, b :: l => a == b && substrAt p l

/-- Does `p` occur anywhere inside `l` (Python's `p in l` on strings)? -/
def hasSubstr (l : List Char) (p : List Char) : Bool :=
  substrAt p l ||
    match l with
    | [] => false
    | _ :: t => hasSubstr t p

/-- Python's substring test `pat in s`. -/
def strContains (s pat : String) : Bool := hasSubstr s.toList pat.toList

/-- Python's `s.startswith(pre)`. -/
def pyStartsWith (s pre : String) : Bool := substrAt pre.toList s.toList

/-- Drop leading Python whitespace. -/
def dropWs (l : List Char) : List Char := l.dropWhile isWsChar

/-- Python's `str.strip()` on a character list. -/
def trimListC (l : List Char) : List Char :=
  ((dropWs l).reverse.dropWhile isWsChar).reverse

/-- Python's `str.strip()`. -/
def pyStrip (s : String) : String := String.mk (trimListC s.toList)

/-- ASCII lower-casing of one character (Python's `str.lower()` on the ASCII
range; every pattern constant in the source is ASCII). -/
def charLower (c : Char) : Char :=
  if 'A' ≤ c && c ≤ 'Z' then Char.ofNat (c.toNat + 32) else c

/-- Python's `str.lower()` (ASCII range). -/
def pyLower (s : String) : String := String.mk (s.toList.map charLower)

/-- Python's `s[:n]` string slice. -/
def pyTake (s : String) (n : Nat) : String := String.mk (s.toList.take n)

/-- Single-character occurrence replacement: Python's
`s.replace(old, new)` for a one-character `old` (the source only replaces
`'-'`). -/
def replaceChar (old : Char) (new : List Char) : List Char → List Char
  | [] => []
  | c :: rest =>
    if c == old then new ++ replaceChar old new rest else c :: replaceChar old new rest

/-- Python's `s.replace("-", new)`. -/
def pyReplaceDash (s new : String) : String :=
  String.mk (replaceChar '-' new.toList s.toList)

/-- Scan for the first `gt` character; return the remainder after it.
Implements the closing-bracket search of the regex `<[^>]+>`. -/
def scanGt : List Char → Option (List Char)
  | [] => none
  | d :: ds => if d == '>' then some ds else scanGt ds

theorem scanGt_length_lt : ∀ (l r : List Char), scanGt l = some r → r.length < l.length := by
  intro l
  induction l with
  | nil => intro r h; simp [scanGt] at h
  | cons d ds ih =>
    intro r h
    simp only [scanGt] at h
    by_cases hd : d == '>'
    · simp [hd] at h
      simp [← h]
    · simp [hd] at h
      exact Nat.lt_trans (ih r h) (by simp)

/-- Can the tag body `[^>]+>` match at the start of `l` (the characters after
a `<`)? If so, return the remainder after the closing `>`. -/
def scanTag : List Char → Option (List Char)
  | [] => none
  | d :: ds => if d == '>' then none else scanGt ds

theorem scanTag_length_lt (l r : List Char) (h : scanTag l = some r) :
    r.length < l.length := by
  match l with
  | [] => simp [scanTag] at h
  | d :: ds =>
    simp only [scanTag] at h
    by_cases hd : d == '>'
    · simp [hd] at h
    · simp [hd] at h
      exact Nat.lt_trans (scanGt_length_lt _ _ h) (by simp)

/-- Fuelled scan of `re.sub(r'<[^>]+>', '', text)`. The fuel only forces
structural recursion (so that the kernel can evaluate closed instances); a
match always consumes at least one character, so fuel `l.length` is never
exhausted. -/
def removeTagsF : Nat → List Char → List Char
  | _, [] => []
  | 0, l => l
  | fuel + 1, c :: rest =>
    if c == '<' then
      match scanTag rest with
      | some after => removeTagsF fuel after
      | none => c :: removeTagsF fuel rest
    else c :: removeTagsF fuel rest

/-- Implements `re.sub(r'<[^>]+>', '', text)`: remove every non-overlapping
leftmost occurrence of `<`, one or more non-`>` characters, `>`. -/
def removeTags (l : List Char) : List Char := removeTagsF l.length l

/-- Implements `re.sub(r'\s+', ' ', text)`: collapse each maximal whitespace
run to a single space. -/
def collapseWs : List Char → List Char
  | [] => []
  | [c] => if isWsChar c then [' '] else [c]
  | a :: b :: rest =>
    if isWsChar a then
      if isWsChar b then collapseWs (b :: rest)
      else ' ' :: collapseWs (b :: rest)
    else a :: collapseWs (b :: rest)

/-- `StudyResult._clean_text` (multi_database_client.py lines 45-53): remove
HTML tags, normalise whitespace, trim. -/
def _clean_text (text : String) : String :=
  pyStrip (String.mk (collapseWs (removeTags text.toList)))

/-- The `StudyResult` dataclass (multi_database_client.py lines 24-37).
Optional fields keep Python's `None` as `none`. -/
structure StudyResult where
  title : String
  abstract : String
  authors : List String
  journal : String
  publication_year : Option Int
  pmid : Option String := none
  doi : Option String := none
  source_database : String := ""
  study_type : String := "Unknown"
  url : Option String := none
  citations_count : Option Int := none
deriving DecidableEq, Repr

/-- `StudyResult.__post_init__` (lines 39-43): every construction site cleans
title, abstract and journal. -/
def mkStudyResult (r : StudyResult) : StudyResult :=
  { r with
    title := _clean_text r.title
    abstract := _clean_text r.abstract
    journal := _clean_text r.journal }

/-- Python truthiness of an optional string (`if self.pmid:` is false for
both `None` and `""`). -/
def truthyStr : Option String → Bool
  | none => false
  | some s => !(s == "")

/-- Python truthiness of an optional integer (`None` and `0` are falsy). -/
def truthyInt : Option Int → Bool
  | none => false
  | some n => !(n == 0)

/-- `StudyResult.get_unique_id` (lines 55-64), parameterised by the external
`md5` hex digest function. -/
def get_unique_id (md5hex : String → String) (s : StudyResult) : String :=
  if truthyStr s.pmid then "pmid_" ++ s.pmid.getD ""
  else if truthyStr s.doi then "doi_" ++ s.doi.getD ""
  else "title_" ++ pyTake (md5hex (pyLower s.title)) 12

/-- Worker loop of `MultiDatabaseSearchEngine._deduplicate_studies`
(lines 847-870), with explicit `seen_ids` and `title_hashes` state. -/
def _deduplicate_studies_go (md5hex : String → String) :
    List StudyResult → List String → List String → List StudyResult
  | [], _, _ => []
  | s :: rest, seen_ids, title_hashes =>
    let uid := get_unique_id md5hex s
    if seen_ids.contains uid then
      _deduplicate_studies_go md5hex rest seen_ids title_hashes
    else if pyStartsWith uid "title_" then
      let th := md5hex (pyLower s.title)
      if title_hashes.contains th then
        _deduplicate_studies_go md5hex rest seen_ids title_hashes
      else s :: _deduplicate_studies_go md5hex rest (uid :: seen_ids) (th :: title_hashes)
    else s :: _deduplicate_studies_go md5hex rest (uid :: seen_ids) title_hashes

/-- `MultiDatabaseSearchEngine._deduplicate_studies` (lines 847-870). -/
def _deduplicate_studies (md5hex : String → String) (studies : List StudyResult) :
    List StudyResult :=
  _deduplicate_studies_go md5hex studies [] []

/-- Stand-in instantiation for the external md5 hex digest in closed
statements; the statements using it do not depend on the digest's values. -/
def idHash : String → String := fun s => s

/-- ASCII letter class `[A-Za-z]`. -/
def isAsciiAlpha (c : Char) : Bool := ('A' ≤ c && c ≤ 'Z') || ('a' ≤ c && c ≤ 'z')

/-- ASCII digit class `\d` (all digits occurring in the source are ASCII). -/
def isAsciiDigit (c : Char) : Bool := '0' ≤ c && c ≤ '9'

/-- Try to match the regex `\s*\([^)]*\)\s*` at the head of `l`; on success
return the remainder after the match. -/
def matchParen (l : List Char) : Option (List Char) :=
  match l.dropWhile isWsChar with
  | '(' :: r =>
    match r.dropWhile (fun c => !(c == ')')) with
    | ')' :: r2 => some (r2.dropWhile isWsChar)
    | _ => none
  | _ => none

theorem length_dropWhile_le' {α : Type} (p : α → Bool) (l : List α) :
    (l.dropWhile p).length ≤ l.length := by
  induction l with
  | nil => simp [List.dropWhile]
  | cons a t ih =>
    simp only [List.dropWhile]
    by_cases h : p a
    · simp [h]; omega
    · simp [h]

theorem matchParen_length_lt (l r : List Char) (h : matchParen l = some r) :
    r.length < l.length := by
  unfold matchParen at h
  split at h
  · rename_i r1 heq1
    split at h
    · rename_i r2 heq2
      simp only [Option.some.injEq] at h
      subst h
      have a1 := length_dropWhile_le' isWsChar l
      have a2 := length_dropWhile_le' (fun c => !(c == ')')) r1
      have a3 := length_dropWhile_le' isWsChar r2
      rw [heq1] at a1
      rw [heq2] at a2
      simp at a1 a2
      omega
    · simp at h
  · simp at h

/-- Fuelled scan of `re.sub(r'\s*\([^)]*\)\s*', ' ', name)`; as in
`removeTagsF`, the fuel only forces structural recursion and fuel `l.length`
is never exhausted. -/
def removeParensF : Nat → List Char → List Char
  | _, [] => []
  | 0, l => l
  | fuel + 1, c :: rest =>
    match matchParen (c :: rest) with
    | some after => ' ' :: removeParensF fuel after
    | none => c :: removeParensF fuel rest

/-- Implements `re.sub(r'\s*\([^)]*\)\s*', ' ', name)`. -/
def removeParensL (l : List Char) : List Char := removeParensF l.length l

/-- Try to match the regex `([A-Za-z]+)[- ]?(\d+)` at the head of `l`,
returning the two capture groups. -/
def matchLD (l : List Char) : Option (String × String) :=
  let letters := l.takeWhile isAsciiAlpha
  if letters.isEmpty then none
  else
    match l.dropWhile isAsciiAlpha with
    | [] => none
    | c :: cs =>
      if isAsciiDigit c then
        some (String.mk letters, String.mk ((c :: cs).takeWhile isAsciiDigit))
      else if c == '-' || c == ' ' then
        match cs with
        | [] => none
        | d :: _ =>
          if isAsciiDigit d then some (String.mk letters, String.mk (cs.takeWhile isAsciiDigit))
          else none
      else none

/-- `re.search(r'([A-Za-z]+)[- ]?(\d+)', name)`: leftmost match. -/
def searchLD : List Char → Option (String × String)
  | [] => none
  | c :: rest =>
    match matchLD (c :: rest) with
    | some r => some r
    | none => searchLD rest

/-- Python's `str.split()` word accumulator. -/
def wordsAux : List Char → List Char → List String
  | [], acc => if acc.isEmpty then [] else [String.mk acc.reverse]
  | c :: rest, acc =>
    if isWsChar c then
      if acc.isEmpty then wordsAux rest [] else String.mk acc.reverse :: wordsAux rest []
    else wordsAux rest (c :: acc)

/-- Python's `str.split()` (split on whitespace runs, no empty words). -/
def pySplit (s : String) : List String := wordsAux s.toList []

/-- The `no_parens` candidate of `_generate_algorithmic_variations`. -/
def noParensOf (name : String) : String := pyStrip (String.mk (removeParensL name.toList))

/-- `CompoundSynonymManager._generate_algorithmic_variations` (lines 151-180). -/
def _generate_algorithmic_variations (name : String) : List String :=
  (if strContains name "-" then [pyReplaceDash name " ", pyReplaceDash name ""] else [])
  ++ (if noParensOf name ≠ name then [noParensOf name] else [])
  ++ (match searchLD name.toList with
      | some (letters, numbers) =>
        [letters ++ "-" ++ numbers, letters ++ " " ++ numbers, letters ++ numbers]
      | none => [])
  ++ (if (pySplit name).length > 2 && ((pySplit name).headD "").length > 4
      then [(pySplit name).headD ""] else [])

/-- The static synonym dictionary of
`CompoundSynonymManager._load_comprehensive_synonyms` (lines 72-130), as an
association list in source order. -/
def synonym_db : List (String × List String) := [
  ("RAD-140", ["Testolone", "RAD140", "RAD 140", "Vosilasarm"]),
  ("LGD-4033", ["Ligandrol", "LGD4033", "LGD 4033", "VK5211"]),
  ("MK-2866", ["Ostarine", "Enobosarm", "GTx-024", "MK2866"]),
  ("S-4", ["Andarine", "S4", "GTx-007"]),
  ("GW-501516", ["Cardarine", "GW501516", "GW 501516", "Endurobol"]),
  ("MK-677", ["Ibutamoren", "Nutrobal", "MK677", "L-163191"]),
  ("SR9009", ["Stenabolic", "SR-9009", "SR 9009"]),
  ("YK-11", ["YK11", "YK 11"]),
  ("S-23", ["S23", "S 23"]),
  ("LGD-3303", ["LGD3303", "LGD 3303"]),
  ("BPC-157", ["Body Protection Compound", "Pentadecapeptide BPC 157", "BPC157", "BPC 157"]),
  ("TB-500", ["Thymosin Beta-4", "Tβ4", "TB500", "Thymosin β4"]),
  ("CJC-1295", ["CJC1295", "CJC 1295", "Modified GRF 1-29"]),
  ("Ipamorelin", ["NNC 26-0161", "Ipamorelin acetate"]),
  ("GHRP-6", ["Growth Hormone Releasing Peptide-6", "GHRP6"]),
  ("GHRP-2", ["Growth Hormone Releasing Peptide-2", "GHRP2"]),
  ("Sermorelin", ["GRF 1-29", "GHRH 1-29", "Growth Hormone Releasing Hormone"]),
  ("PT-141", ["Bremelanotide", "PT141", "PT 141"]),
  ("Melanotan II", ["MT-II", "MT2", "Melanotan 2"]),
  ("Hexarelin", ["Examorelin", "L-692429"]),
  ("AOD-9604", ["AOD9604", "hGH Fragment 176-191"]),
  ("MGF", ["Mechano Growth Factor", "IGF-1Ec"]),
  ("PEG-MGF", ["Pegylated Mechano Growth Factor"]),
  ("Follistatin", ["FST", "Activin-binding Protein"]),
  ("ACE-031", ["Myostatin Inhibitor", "ACVR2B"]),
  ("Epitalon", ["Epithalon", "Alanyl-glutamyl-aspartyl-glycine"]),
  ("GHK-Cu", ["Copper Peptide", "Gly-His-Lys-Cu", "GHK Copper"]),
  ("2-oxo-1-pyrrolidine acetamide", ["Piracetam", "Nootropil"]),
  ("1-(4-methoxybenzoyl)-2-pyrrolidinone", ["Aniracetam", "Draganon"]),
  ("4-hydroxy-2-oxopyrrolidine-N-acetamide", ["Oxiracetam", "Neuractiv"]),
  ("2-[(diphenylmethyl)sulfinyl]acetamide", ["Modafinil", "Provigil"]),
  ("N-[2-(diisopropylamino)ethyl]-2-oxo-1-pyrrolidineacetamide", ["Pramiracetam"]),
  ("4-phenyl-2-oxopyrrolidine-1-acetamide", ["Phenylpiracetam", "Carphedon"]),
  ("2-benzhydrylsulfinyl-N-hydroxyacetamide", ["Adrafinil", "Olmifon"]),
  ("bisfluoromodafinil", ["Flmodafinil", "CRL-40,940"]),
  ("1-benzoyl-4-propanoylpiperazine", ["Sunifiram", "DM-235"]),
  ("L-Alpha glycerylphosphorylcholine", ["Alpha-GPC", "Choline Alfoscerate"]),
  ("Cytidine 5-diphosphocholine", ["CDP-Choline", "Citicoline"]),
  ("2-(Dimethylamino)ethanol", ["DMAE", "Dimethylaminoethanol"]),
  ("4-amino-3-phenylbutyric acid", ["Phenibut", "β-phenyl-GABA"]),
  ("Nicotinoyl-GABA", ["Picamilon", "Pikamilon"]),
  ("Creatine Monohydrate", ["Creatine", "N-methylguanidino acetic acid"]),
  ("Beta-Alanine", ["β-Alanine", "3-aminopropanoic acid"]),
  ("L-Citrulline", ["Citrulline", "2-Amino-5-(carbamoylamino)pentanoic acid"]),
  ("Ashwagandha", ["Withania somnifera", "Indian Winter Cherry"]),
  ("Rhodiola Rosea", ["Golden Root", "Arctic Root", "Rose Root"]),
  ("Bacopa Monnieri", ["Brahmi", "Water Hyssop"]),
  ("Lion\x27s Mane", ["Hericium erinaceus", "Bearded Tooth Mushroom"])]

/-- Dictionary lookup `self.synonym_db[compound_name]` guarded by
`if compound_name in self.synonym_db` (lines 137-138); every value list in
the dictionary is non-empty, so a default of `[]` for a missing key gives
the same extension behaviour as the guarded `extend`. -/
def synonymsOf (name : String) : List String :=
  match synonym_db.find? (fun p => p.1 == name) with
  | some p => p.2
  | none => []

/-- First-occurrence deduplication with an explicit seen set: the model of
`list(set(...))`, whose iteration order Python leaves unspecified; the model
fixes first-occurrence order (within one process the order is fixed, and no
claim below depends on the choice). -/
def dedupFirstAux : List String → List String → List String
  | [], _ => []
  | x :: xs, seen =>
    if seen.contains x then dedupFirstAux xs seen else x :: dedupFirstAux xs (x :: seen)

/-- Deduplicate a string list keeping first occurrences. -/
def dedupFirst (l : List String) : List String := dedupFirstAux l []

/-- Stable insertion step: place `x` (an originally-earlier element) before
the first element `y` of the sorted tail with `keep x y`. -/
def insertS {α : Type} (keep : α → α → Bool) (x : α) : List α → List α
  | [] => [x]
  | y :: ys => if keep x y then x :: y :: ys else y :: insertS keep x ys

/-- Stable sort by the non-strict comparison `keep` (`keep x y` = "x may sit
before y"). A stable sort's output is uniquely determined by the key, so this
models Python's stable `list.sort`. -/
def stableSort {α : Type} (keep : α → α → Bool) : List α → List α
  | [] => []
  | x :: xs => insertS keep x (stableSort keep xs)

/-- Ascending-by-length comparison of `variations.sort(key=len)`. -/
def lenLe (a b : String) : Bool := decide (a.length ≤ b.length)

/-- `CompoundSynonymManager.get_search_variations` (lines 132-149). -/
def get_search_variations (compound_name : String) : List String :=
  let variations := [pyStrip compound_name] ++ synonymsOf compound_name
      ++ _generate_algorithmic_variations compound_name
  let cleaned := (variations.map pyStrip).filter (fun v => !(v == ""))
  (stableSort lenLe (dedupFirst cleaned)).take 8

/-- Study-type preference table of `_rank_studies` (lines 886-897). -/
def study_type_scores : String → ℚ
  | "Randomized Controlled Trial" => 8
  | "Meta-Analysis" => 7
  | "Systematic Review" => 6
  | "Cohort Study" => 5
  | "Case-Control Study" => 4
  | "Clinical Trial" => 6
  | "Review" => 3
  | "Observational Study" => 2
  | "Animal Study" => 1
  | "In Vitro Study" => 1/2
  | _ => 1

/-- Database preference table of `_rank_studies` (lines 900-909). -/
def db_scores : String → ℚ
  | "PubMed" => 5
  | "Europe PMC" => 4
  | "Semantic Scholar" => 3
  | "ClinicalTrials.gov" => 4
  | "CrossRef" => 2
  | "bioRxiv" => 1
  | "medRxiv" => 1
  | _ => 1

/-- `calculate_relevance_score` inside `_rank_studies` (lines 874-922).
Floats are modelled as rationals. -/
def calculate_relevance_score (compound_name : String) (study : StudyResult) : ℚ :=
  (if strContains (pyLower study.title) (pyLower compound_name) then 10 else 0)
  + (if strContains (pyLower study.abstract) (pyLower compound_name) then 5 else 0)
  + study_type_scores study.study_type
  + db_scores study.source_database
  + (if truthyInt study.citations_count then
       min ((study.citations_count.getD 0 : ℚ) * (1/10)) 5 else 0)
  + (if truthyInt study.publication_year && decide (2020 ≤ study.publication_year.getD 0) then 2
     else if truthyInt study.publication_year && decide (2015 ≤ study.publication_year.getD 0) then 1
     else 0)

/-- `MultiDatabaseSearchEngine._rank_studies` (lines 872-926):
`studies.sort(key=calculate_relevance_score, reverse=True)` — a stable
descending sort by score. -/
def _rank_studies (studies : List StudyResult) (compound_name : String) : List StudyResult :=
  stableSort
    (fun a b =>
      decide (calculate_relevance_score compound_name b ≤ calculate_relevance_score compound_name a))
    studies

/-- `self.database_priority` (lines 749-756); the `self.clients` dict
(lines 739-746) has the same insertion order, so the same list also gives the
task-submission order of `search_parallel`. -/
def database_priority : List String :=
  ["pubmed", "europepmc", "semantic_scholar", "crossref", "clinical_trials", "biorxiv"]

/-- Mocked adapter behaviour: `(database key, term, max_results) ↦ records`.
Adapters never raise (their contract logs and returns `[]`), so a total
function models every behaviour. -/
abbrev AdapterBehavior := String → String → Nat → List StudyResult

/-- Per-database term loop of `search_comprehensive` (lines 772-786):
accumulate results term by term, stopping once `min_per_database * 2`
results were gathered. -/
def search_db_go (search : AdapterBehavior) (db : String) (min_per_database : Nat) :
    List String → List StudyResult → List StudyResult
  | [], acc => acc
  | t :: ts, acc =>
    let acc2 := acc ++ search db t min_per_database
    if min_per_database * 2 ≤ acc2.length then acc2
    else search_db_go search db min_per_database ts acc2

/-- Database loop of `search_comprehensive` (lines 770-794): accumulate per
database in priority order, stopping once `max_results` were gathered. -/
def search_all_go (search : AdapterBehavior) (terms : List String)
    (max_results min_per_database : Nat) :
    List String → List StudyResult → List StudyResult
  | [], acc => acc
  | db :: dbs, acc =>
    let acc2 := acc ++ search_db_go search db min_per_database terms []
    if max_results ≤ acc2.length then acc2
    else search_all_go search terms max_results min_per_database dbs acc2

/-- `MultiDatabaseSearchEngine.search_comprehensive` (lines 758-802). -/
def search_comprehensive (md5hex : String → String) (search : AdapterBehavior)
    (compound_name : String) (max_results min_per_database : Nat) : List StudyResult :=
  let search_terms := get_search_variations compound_name
  let all_studies := search_all_go search search_terms max_results min_per_database
      database_priority []
  let deduplicated_studies := _deduplicate_studies md5hex all_studies
  (_rank_studies deduplicated_studies compound_name).take max_results

/-- `MultiDatabaseSearchEngine._search_single` (lines 839-845). -/
def _search_single (search : AdapterBehavior) (db : String) (term : String) : List StudyResult :=
  search db term 10

/-- `MultiDatabaseSearchEngine.search_parallel` (lines 804-837). The worker
pool's completion order is nondeterministic in the source; the model collects
results in task-submission order (database-major over the first three terms),
one deterministic admissible schedule. -/
def search_parallel (md5hex : String → String) (search : AdapterBehavior)
    (compound_name : String) (max_results : Nat) : List StudyResult :=
  let search_terms := get_search_variations compound_name
  let search_tasks := (database_priority.map
      (fun db => (search_terms.take 3).map (fun t => (db, t)))).flatten
  let all_studies := (search_tasks.map (fun p => _search_single search p.1 p.2)).flatten
  let deduplicated_studies := _deduplicate_studies md5hex all_studies
  (_rank_studies deduplicated_studies compound_name).take max_results

/-- Decision chain of `EnhancedPubMedClient._determine_study_type`
(lines 402-421): PubMed's own eight-case study-type heuristic over the
lowercased text. -/
def _determine_study_type_text (text : String) : String :=
  if strContains text "randomized controlled trial" || strContains text "rct" ||
      strContains text "double-blind" || strContains text "placebo-controlled" then
    "Randomized Controlled Trial"
  else if strContains text "meta-analysis" || strContains text "systematic review" then
    "Meta-Analysis"
  else if strContains text "cohort study" || strContains text "longitudinal" then
    "Cohort Study"
  else if strContains text "case-control" || strContains text "case control" then
    "Case-Control Study"
  else if strContains text "review" || strContains text "overview" then
    "Review"
  else if strContains text "in vitro" || strContains text "cell culture" then
    "In Vitro Study"
  else if strContains text "animal" || strContains text "rat" ||
      strContains text "mouse" || strContains text "rodent" then
    "Animal Study"
  else "Observational Study"

/-- `EnhancedPubMedClient._determine_study_type` (lines 402-421), applied to
the lowercased `title + " " + abstract`. -/
def _determine_study_type (title abstract : String) : String :=
  _determine_study_type_text (pyLower (title ++ " " ++ abstract))

/-- Fields `EnhancedPubMedClient._parse_pubmed_article` (lines 325-400)
extracts from the article XML before building the record; the XML walking
itself is abstracted into this record. -/
structure PubMedArticleFields where
  title : String
  abstract : String
  authors : List String
  journal : String
  pub_year : Option Int
  pmid : String
  doi : Option String
deriving DecidableEq, Repr

/-- Record construction of `_parse_pubmed_article` (lines 382-396): the
study type comes from PubMed's own heuristic over the raw title/abstract. -/
def _parse_pubmed_article (a : PubMedArticleFields) : StudyResult :=
  mkStudyResult {
    title := a.title
    abstract := a.abstract
    authors := a.authors
    journal := a.journal
    publication_year := a.pub_year
    pmid := some a.pmid
    doi := a.doi
    source_database := "PubMed"
    study_type := _determine_study_type a.title a.abstract
    url := some ("https://pubmed.ncbi.nlm.nih.gov/" ++ a.pmid ++ "/") }

/-- One Europe PMC JSON result, with exactly the keys
`EuropePMCClient._parse_europepmc_result` (lines 460-477) reads; missing
keys are `none`. -/
structure EuropePMCResult where
  title : Option String
  abstractText : Option String
  authorString : Option String
  journalTitle : Option String
  pubYear : Option Int
  pmid : Option String
  doi : Option String
  citedByCount : Option Int
deriving DecidableEq, Repr

/-- `EuropePMCClient._parse_europepmc_result` (lines 460-477). Note that no
`study_type` is passed, so the dataclass default `"Unknown"` stands. -/
def _parse_europepmc_result (result : EuropePMCResult) : StudyResult :=
  mkStudyResult {
    title := result.title.getD ""
    abstract := result.abstractText.getD ""
    authors := [result.authorString.getD ""]
    journal := result.journalTitle.getD ""
    publication_year := result.pubYear
    pmid := result.pmid
    doi := result.doi
    source_database := "Europe PMC"
    citations_count := result.citedByCount
    url := if truthyStr result.pmid then
        some ("https://europepmc.org/article/MED/" ++ result.pmid.getD "") else none }

/-- One CrossRef author object (`given`/`family` keys). -/
structure CrossRefAuthor where
  given : Option String
  family : Option String
deriving DecidableEq, Repr

/-- One CrossRef work item, with the keys `_parse_crossref_result`
(lines 576-603) reads; `datePartsJson` models `item['published']['date-parts']`
(outer `none` when either key is absent, defaulted to `[[None]]`). -/
structure CrossRefItem where
  title : Option (List String)
  abstract : Option String
  author : Option (List CrossRefAuthor)
  containerTitle : Option (List String)
  DOI : Option String
  datePartsJson : Option (List (List (Option Int)))
deriving DecidableEq, Repr

/-- Python's `' '.flatten(xs)`. -/
def joinSpace : List String → String
  | [] => ""
  | [s] => s
  | s :: rest => s ++ " " ++ joinSpace rest

/-- `CrossRefClient._parse_crossref_result` (lines 576-603). When
`date-parts` is present but the empty list, the `[0]` index raises and the
surrounding `except` returns `None`; every other access is defaulted. -/
def _parse_crossref_result (item : CrossRefItem) : Option StudyResult :=
  let authors := ((item.author.getD []).filter
      (fun a => truthyStr a.given && truthyStr a.family)).map
      (fun a => a.given.getD "" ++ " " ++ a.family.getD "")
  match item.datePartsJson.getD [[none]] with
  | [] => none
  | pub_date :: _ =>
    let year := match pub_date with
      | [] => none
      | y :: _ => y
    some (mkStudyResult {
      title := joinSpace (item.title.getD [])
      abstract := item.abstract.getD ""
      authors := authors
      journal := joinSpace (item.containerTitle.getD [])
      publication_year := year
      doi := item.DOI
      source_database := "CrossRef"
      url := if truthyStr item.DOI then some ("https://doi.org/" ++ item.DOI.getD "") else none })

/-- `identificationModule` of a ClinicalTrials.gov v2 study JSON. -/
structure CTIdentificationModule where
  nctId : Option String
  officialTitle : Option String
  briefTitle : Option String
deriving DecidableEq, Repr

/-- `descriptionModule` of a ClinicalTrials.gov v2 study JSON;
`briefSummaryTextMd` models `briefSummary.textMd` (defaulted at both
levels). -/
structure CTDescriptionModule where
  briefSummaryTextMd : Option String
deriving DecidableEq, Repr

/-- `protocolSection` of a ClinicalTrials.gov v2 study JSON. -/
structure CTProtocolSection where
  identificationModule : Option CTIdentificationModule
  descriptionModule : Option CTDescriptionModule
deriving DecidableEq, Repr

/-- One ClinicalTrials.gov v2 study JSON, with the keys
`_parse_clinical_trial` (lines 639-662) reads. -/
structure CTStudyJson where
  protocolSection : Option CTProtocolSection
deriving DecidableEq, Repr

/-- `ClinicalTrialsClient._parse_clinical_trial` (lines 639-662). The
`or` between the two title fields keeps the first truthy value. -/
def _parse_clinical_trial (study : CTStudyJson) : Option StudyResult :=
  let ps := study.protocolSection.getD ⟨none, none⟩
  let idm := ps.identificationModule.getD ⟨none, none, none⟩
  let dm := ps.descriptionModule.getD ⟨none⟩
  let nct_id := idm.nctId.getD ""
  let official := idm.officialTitle.getD ""
  let title := if official == "" then idm.briefTitle.getD "" else official
  let abstract := dm.briefSummaryTextMd.getD ""
  some (mkStudyResult {
    title := title
    abstract := abstract
    authors := []
    journal := "ClinicalTrials.gov"
    publication_year := none
    source_database := "ClinicalTrials.gov"
    study_type := "Clinical Trial"
    url := if !(nct_id == "") then some ("https://clinicaltrials.gov/study/" ++ nct_id) else none })

/-- The fields of the persistence-layer `Study` row that
`AdvancedEvidenceGrader` (enhanced_summary_generator.py) reads. -/
structure Study where
  title : String
  abstract : String
  journal : String
  publication_year : Option Int
deriving DecidableEq, Repr

/-- View a search record as a grader input row. -/
def studyOfResult (r : StudyResult) : Study :=
  ⟨r.title, r.abstract, r.journal, r.publication_year⟩

/-- Decision chain of `AdvancedEvidenceGrader._classify_study_type_advanced`
(enhanced_summary_generator.py lines 261-300): the shared fifteen-rule
first-match-wins classifier waterfall over the lowercased text. -/
def _classify_study_type_advanced_text (text : String) : String :=
  if strContains text "meta-analysis" || strContains text "meta analysis" ||
      strContains text "metanalysis" then
    if strContains text "systematic" then "Systematic Review with Meta-Analysis"
    else "Meta-Analysis"
  else if strContains text "systematic review" then "Systematic Review"
  else if strContains text "randomized controlled trial" ||
      strContains text "randomised controlled trial" then
    if strContains text "double-blind" || strContains text "double blind" then "Double-Blind RCT"
    else if strContains text "placebo" then "Placebo-Controlled RCT"
    else "Randomized Controlled Trial"
  else if strContains text "rct" && (strContains text "random" || strContains text "trial") then
    "Randomized Controlled Trial"
  else if strContains text "clinical trial" || strContains text "phase i" ||
      strContains text "phase ii" || strContains text "phase iii" then
    "Clinical Trial"
  else if strContains text "prospective" && strContains text "cohort" then
    "Prospective Cohort Study"
  else if strContains text "cohort" then "Retrospective Cohort Study"
  else if strContains text "case-control" || strContains text "case control" then
    "Case-Control Study"
  else if strContains text "cross-sectional" || strContains text "cross sectional" then
    "Cross-Sectional Study"
  else if strContains text "case series" then "Case Series"
  else if strContains text "case report" then "Case Report"
  else if strContains text "animal" || strContains text "rat" || strContains text "mouse" ||
      strContains text "rodent" || strContains text "mice" then
    "Animal Study"
  else if strContains text "in vitro" || strContains text "cell culture" ||
      strContains text "cell line" then
    "In Vitro Study"
  else if strContains text "review" then "Review"
  else "Observational Study"

/-- `AdvancedEvidenceGrader._classify_study_type_advanced` (lines 261-300),
applied to the lowercased `title + " " + abstract`. -/
def _classify_study_type_advanced (study : Study) : String :=
  _classify_study_type_advanced_text (pyLower (study.title ++ " " ++ study.abstract))

/-- `self.study_type_weights` of `AdvancedEvidenceGrader.__init__`
(lines 189-207), with the `.get(study_type, 1)` default. -/
def study_type_weights : String → ℚ
  | "Meta-Analysis" => 15
  | "Systematic Review with Meta-Analysis" => 14
  | "Systematic Review" => 12
  | "Randomized Controlled Trial" => 10
  | "Double-Blind RCT" => 11
  | "Placebo-Controlled RCT" => 11
  | "Clinical Trial" => 8
  | "Prospective Cohort Study" => 7
  | "Retrospective Cohort Study" => 6
  | "Case-Control Study" => 5
  | "Cross-Sectional Study" => 4
  | "Case Series" => 3
  | "Case Report" => 2
  | "Review" => 4
  | "Animal Study" => 3
  | "In Vitro Study" => 2
  | "Observational Study" => 4
  | _ => 1

/-- `self.journal_impact_tiers` (lines 209-213), flattened: the tier loop of
`_count_high_impact_journals` breaks on the first match in any tier, so only
the union of the keyword lists matters. -/
def journal_impact_keywords : List String :=
  ["nature", "science", "cell", "lancet", "nejm", "jama",
   "plos", "cochrane", "bmj", "american journal",
   "journal", "international", "european"]

/-- One study counts as high impact when its journal is truthy and contains
any tier keyword (case-insensitive substring). -/
def isHighImpact (s : Study) : Bool :=
  !(s.journal == "") && journal_impact_keywords.any (fun j => strContains (pyLower s.journal) j)

/-- `AdvancedEvidenceGrader._count_high_impact_journals` (lines 340-350). -/
def _count_high_impact_journals (studies : List Study) : Nat :=
  studies.countP isHighImpact

/-- Recency test `s.publication_year and s.publication_year >= 2019`
(lines 225 and 329). -/
def isRecent (s : Study) : Bool :=
  truthyInt s.publication_year && decide (2019 ≤ s.publication_year.getD 0)

/-- Count of recent studies. -/
def _count_recent (studies : List Study) : Nat := studies.countP isRecent

/-- `AdvancedEvidenceGrader._count_study_types` (lines 302-307) composed
with the classification pass `_classify_all_studies` (lines 253-259), read
through `.get(ty, 0)` as a total count function. -/
def _count_study_types (studies : List Study) (ty : String) : Nat :=
  studies.countP (fun s => _classify_study_type_advanced s == ty)

/-- `AdvancedEvidenceGrader._calculate_advanced_quality_score`
(lines 309-338). -/
def _calculate_advanced_quality_score (studies : List Study) : ℚ :=
  let total_weight : ℚ :=
    (studies.map (fun s => study_type_weights (_classify_study_type_advanced s))).sum
  let total_studies : ℚ := studies.length
  let max_possible : ℚ := total_studies * 15
  let base_score : ℚ := (total_weight / max_possible) * 10
  let bonuses : ℚ :=
    (if studies.length ≥ 20 then (1.5 : ℚ)
     else if studies.length ≥ 10 then 1
     else if studies.length ≥ 5 then (0.5 : ℚ) else 0)
    + ((_count_recent studies : ℚ) / total_studies) * (0.5 : ℚ)
    + (if _count_high_impact_journals studies > 0 then
         min (((_count_high_impact_journals studies : ℚ) / total_studies) * 2) 1 else 0)
  min (base_score + bonuses) 10

/-- `AdvancedEvidenceGrader._determine_advanced_grade` (lines 352-383):
the ordered grade/confidence decision table. -/
def _determine_advanced_grade (counts : String → Nat) (quality_score : ℚ)
    (total_studies : Nat) : String × ℚ :=
  let rcts := counts "Randomized Controlled Trial" + counts "Double-Blind RCT"
      + counts "Placebo-Controlled RCT"
  let meta_analyses := counts "Meta-Analysis" + counts "Systematic Review with Meta-Analysis"
  let systematic_reviews := counts "Systematic Review"
  if meta_analyses ≥ 3 ∨ (meta_analyses ≥ 2 ∧ quality_score ≥ (8.5 : ℚ)) then ("A", (0.95 : ℚ))
  else if meta_analyses ≥ 2 ∨ (rcts ≥ 8 ∧ quality_score ≥ 8) then ("A", (0.90 : ℚ))
  else if meta_analyses ≥ 1 ∧ rcts ≥ 5 ∧ quality_score ≥ (7.5 : ℚ) then ("A", (0.85 : ℚ))
  else if meta_analyses ≥ 1 ∨ (rcts ≥ 5 ∧ quality_score ≥ 7) then ("B", (0.80 : ℚ))
  else if rcts ≥ 3 ∧ systematic_reviews ≥ 1 ∧ quality_score ≥ (6.5 : ℚ) then ("B", (0.75 : ℚ))
  else if rcts ≥ 3 ∧ quality_score ≥ 6 then ("B", (0.70 : ℚ))
  else if rcts ≥ 2 ∨ (rcts ≥ 1 ∧ total_studies ≥ 15 ∧ quality_score ≥ 5) then ("C", (0.60 : ℚ))
  else if rcts ≥ 1 ∧ quality_score ≥ (4.5 : ℚ) then ("C", (0.55 : ℚ))
  else if total_studies ≥ 20 ∧ quality_score ≥ 4 then ("C", (0.50 : ℚ))
  else if total_studies ≥ 10 ∧ quality_score ≥ 3 then ("D", (0.40 : ℚ))
  else if total_studies ≥ 5 then ("D", (0.35 : ℚ))
  else ("D", (0.30 : ℚ))

/-- The `EvidenceGrade` dataclass (enhanced_summary_generator.py
lines 54-71); the distribution dict is read as a total count function. -/
structure EvidenceGrade where
  grade : String
  confidence : ℚ
  study_count : Nat
  rct_count : Nat
  meta_analysis_count : Nat
  review_count : Nat
  systematic_review_count : Nat
  cohort_study_count : Nat
  case_control_count : Nat
  animal_study_count : Nat
  in_vitro_count : Nat
  quality_score : ℚ
  study_type_distribution : String → Nat
  recent_studies_count : Nat
  high_impact_journals : Nat

/-- `AdvancedEvidenceGrader._empty_grade` (lines 249-251). -/
def _empty_grade : EvidenceGrade :=
  ⟨"D", 0, 0, 0, 0, 0, 0, 0, 0, 0, 0, 0, fun _ => 0, 0, 0⟩

/-- `AdvancedEvidenceGrader.grade_evidence` (lines 215-247). -/
def grade_evidence (studies : List Study) : EvidenceGrade :=
  if studies.isEmpty then _empty_grade
  else
    let study_counts := _count_study_types studies
    let quality_score := _calculate_advanced_quality_score studies
    let gc := _determine_advanced_grade study_counts quality_score studies.length
    { grade := gc.1
      confidence := gc.2
      study_count := studies.length
      rct_count := study_counts "Randomized Controlled Trial" + study_counts "Double-Blind RCT"
          + study_counts "Placebo-Controlled RCT"
      meta_analysis_count := study_counts "Meta-Analysis"
      review_count := study_counts "Review"
      systematic_review_count := study_counts "Systematic Review"
      cohort_study_count := study_counts "Prospective Cohort Study"
          + study_counts "Retrospective Cohort Study"
      case_control_count := study_counts "Case-Control Study"
      animal_study_count := study_counts "Animal Study"
      in_vitro_count := study_counts "In Vitro Study"
      quality_score := quality_score
      study_type_distribution := study_counts
      recent_studies_count := _count_recent studies
      high_impact_journals := _count_high_impact_journals studies }

/-! Generic lemmas about the stable sort. -/

theorem insertS_perm {α : Type} (keep : α → α → Bool) (x : α) (l : List α) :
    List.Perm (insertS keep x l) (x :: l) := by
  induction l with
  | nil => simp [insertS]
  | cons y ys ih =>
    simp only [insertS]
    by_cases h : keep x y
    · simp [h]
    · simp only [h, if_neg, Bool.false_eq_true, not_false_eq_true]
      exact List.Perm.trans (List.Perm.cons y ih) (List.Perm.swap x y ys)

theorem stableSort_perm {α : Type} (keep : α → α → Bool) (l : List α) :
    List.Perm (stableSort keep l) l := by
  induction l with
  | nil => simp [stableSort]
  | cons x xs ih =>
    exact List.Perm.trans (insertS_perm keep x (stableSort keep xs)) (List.Perm.cons x ih)

theorem mem_insertS {α : Type} (keep : α → α → Bool) (x a : α) (l : List α)
    (h : a ∈ insertS keep x l) : a = x ∨ a ∈ l := by
  have := (insertS_perm keep x l).mem_iff.mp h
  simpa using this

theorem insertS_pairwise {α : Type} (keep : α → α → Bool)
    (htot : ∀ a b, keep a b = true ∨ keep b a = true)
    (htrans : ∀ a b c, keep a b = true → keep b c = true → keep a c = true)
    (x : α) (l : List α) (hl : l.Pairwise (fun a b => keep a b = true)) :
    (insertS keep x l).Pairwise (fun a b => keep a b = true) := by
  induction l with
  | nil => simp [insertS]
  | cons y ys ih =>
    rcases List.pairwise_cons.mp hl with ⟨hy, hys⟩
    simp only [insertS]
    by_cases h : keep x y
    · simp only [h, if_pos]
      refine List.pairwise_cons.mpr ⟨?_, hl⟩
      intro b hb
      rcases List.mem_cons.mp hb with hb | hb
      · subst hb; exact h
      · exact htrans x y b h (hy b hb)
    · simp only [h, Bool.false_eq_true, if_neg, not_false_eq_true]
      refine List.pairwise_cons.mpr ⟨?_, ih hys⟩
      intro b hb
      rcases mem_insertS keep x b ys hb with hb | hb
      · subst hb
        rcases htot y b with hk | hk
        · exact hk
        · exact absurd hk h
      · exact hy b hb

theorem stableSort_pairwise {α : Type} (keep : α → α → Bool)
    (htot : ∀ a b, keep a b = true ∨ keep b a = true)
    (htrans : ∀ a b c, keep a b = true → keep b c = true → keep a c = true)
    (l : List α) :
    (stableSort keep l).Pairwise (fun a b => keep a b = true) := by
  induction l with
  | nil => simp [stableSort]
  | cons x xs ih => exact insertS_pairwise keep htot htrans x (stableSort keep xs) ih

/-! Lemmas about dropWhile, strip idempotence and the dedup helper. -/

theorem dropWhile_head_false {α : Type} (p : α → Bool) :
    ∀ (l : List α) (a : α) (t : List α), l.dropWhile p = a :: t → p a = false := by
  intro l
  induction l with
  | nil => intro a t h; simp [List.dropWhile] at h
  | cons b bs ih =>
    intro a t h
    rw [List.dropWhile_cons] at h
    by_cases hb : p b
    · simp [hb] at h
      exact ih a t h
    · simp [hb] at h
      rcases h with ⟨h1, _⟩
      subst h1
      simpa using hb

theorem dropWhile_idem {α : Type} (p : α → Bool) (l : List α) :
    (l.dropWhile p).dropWhile p = l.dropWhile p := by
  cases h : l.dropWhile p with
  | nil => simp
  | cons a t =>
    have ha := dropWhile_head_false p l a t h
    rw [List.dropWhile_cons]
    simp [ha]

theorem dropWs_trimListC (l : List Char) : dropWs (trimListC l) = trimListC l := by
  unfold trimListC
  cases hrev : ((dropWs l).reverse.dropWhile isWsChar).reverse with
  | nil => simp [dropWs, hrev]
  | cons c cs =>
    have hsplit := List.takeWhile_append_dropWhile isWsChar (dropWs l).reverse
    have hdw : ((dropWs l).reverse.dropWhile isWsChar).reverse
        ++ ((dropWs l).reverse.takeWhile isWsChar).reverse = dropWs l := by
      have h2 := congrArg List.reverse hsplit
      rw [List.reverse_append, List.reverse_reverse] at h2
      exact h2
    rw [hrev] at hdw
    have hc : isWsChar c = false := by
      apply dropWhile_head_false isWsChar l c (cs ++ ((dropWs l).reverse.takeWhile isWsChar).reverse)
      simpa using hdw.symm
    unfold dropWs
    rw [List.dropWhile_cons]
    simp [hc]

theorem trimListC_idem (l : List Char) : trimListC (trimListC l) = trimListC l := by
  conv_lhs => rw [show trimListC (trimListC l)
      = ((dropWs (trimListC l)).reverse.dropWhile isWsChar).reverse from rfl]
  rw [dropWs_trimListC]
  show ((((dropWs l).reverse.dropWhile isWsChar).reverse).reverse.dropWhile isWsChar).reverse
      = trimListC l
  rw [List.reverse_reverse, dropWhile_idem]
  rfl

theorem pyStrip_idem (x : String) : pyStrip (pyStrip x) = pyStrip x := by
  show String.mk (trimListC (trimListC x.toList)) = String.mk (trimListC x.toList)
  rw [trimListC_idem]

theorem mem_dedupFirstAux_not_seen :
    ∀ (l seen : List String) (x : String), x ∈ dedupFirstAux l seen → x ∉ seen := by
  intro l
  induction l with
  | nil => intro seen x h; simp [dedupFirstAux] at h
  | cons y ys ih =>
    intro seen x h
    unfold dedupFirstAux at h
    by_cases hy : seen.contains y
    · rw [if_pos hy] at h
      exact ih seen x h
    · rw [if_neg hy] at h
      rcases List.mem_cons.mp h with h | h
      · subst h
        intro hc
        exact hy (List.elem_eq_true_of_mem hc)
      · have := ih (y :: seen) x h
        intro hc
        exact this (List.mem_cons_of_mem y hc)

theorem dedupFirstAux_nodup : ∀ (l seen : List String), (dedupFirstAux l seen).Nodup := by
  intro l
  induction l with
  | nil => intro seen; simp [dedupFirstAux]
  | cons y ys ih =>
    intro seen
    unfold dedupFirstAux
    by_cases hy : seen.contains y
    · rw [if_pos hy]; exact ih seen
    · rw [if_neg hy]
      refine List.nodup_cons.mpr ⟨?_, ih (y :: seen)⟩
      intro hmem
      exact mem_dedupFirstAux_not_seen ys (y :: seen) y hmem (List.mem_cons_self y seen)

theorem mem_dedupFirstAux_of_mem :
    ∀ (l seen : List String) (x : String), x ∈ l → x ∉ seen → x ∈ dedupFirstAux l seen := by
  intro l
  induction l with
  | nil => intro seen x h; simp at h
  | cons y ys ih =>
    intro seen x hmem hseen
    unfold dedupFirstAux
    rcases List.mem_cons.mp hmem with h | h
    · subst h
      have hy : ¬ seen.contains x := fun hc => hseen (List.mem_of_elem_eq_true hc)
      rw [if_neg hy]
      exact List.mem_cons_self x _
    · by_cases hy : seen.contains y
      · rw [if_pos hy]
        exact ih seen x h hseen
      · rw [if_neg hy]
        by_cases hxy : x = y
        · subst hxy
          exact List.mem_cons_self x _
        · refine List.mem_cons_of_mem y (ih (y :: seen) x h ?_)
          intro hc
          rcases List.mem_cons.mp hc with hc | hc
          · exact hxy hc
          · exact hseen hc

theorem dedupFirstAux_length_le : ∀ (l seen : List String),
    (dedupFirstAux l seen).length ≤ l.length := by
  intro l
  induction l with
  | nil => intro seen; simp [dedupFirstAux]
  | cons y ys ih =>
    intro seen
    unfold dedupFirstAux
    by_cases hy : seen.contains y
    · rw [if_pos hy]
      exact Nat.le_trans (ih seen) (by simp)
    · rw [if_neg hy]
      simpa using ih (y :: seen)

theorem algo_variations_length_le (name : String) :
    (_generate_algorithmic_variations name).length ≤ 7 := by
  unfold _generate_algorithmic_variations
  rcases hld : searchLD name.toList with _ | pair <;> split_ifs <;> simp

/-! Lemmas about the deduplication loop. -/

theorem substrAt_self_append : ∀ (p l : List Char), substrAt p (p ++ l) = true := by
  intro p
  induction p with
  | nil => intro l; simp [substrAt]
  | cons a ps ih => intro l; simp [substrAt, ih]

theorem pyStartsWith_append (pre x : String) : pyStartsWith (pre ++ x) pre = true := by
  unfold pyStartsWith
  have h : (pre ++ x).toList = pre.toList ++ x.toList := rfl
  rw [h]
  exact substrAt_self_append _ _

theorem pyStartsWith_pmid_title (x : String) : pyStartsWith ("pmid_" ++ x) "title_" = false := by
  have h : ("pmid_" ++ x).toList = 'p' :: 'm' :: 'i' :: 'd' :: '_' :: x.toList := rfl
  unfold pyStartsWith
  rw [h]
  simp [substrAt]

theorem pyStartsWith_doi_title (x : String) : pyStartsWith ("doi_" ++ x) "title_" = false := by
  have h : ("doi_" ++ x).toList = 'd' :: 'o' :: 'i' :: '_' :: x.toList := rfl
  unfold pyStartsWith
  rw [h]
  simp [substrAt]

/-- When a unique id starts with "title_", the record is title-derived and
the id is the title form. -/
theorem uid_title_form (md5hex : String → String) (s : StudyResult)
    (h : pyStartsWith (get_unique_id md5hex s) "title_" = true) :
    get_unique_id md5hex s = "title_" ++ pyTake (md5hex (pyLower s.title)) 12 := by
  unfold get_unique_id at h ⊢
  by_cases h1 : truthyStr s.pmid
  · rw [if_pos h1] at h
    rw [pyStartsWith_pmid_title] at h
    simp at h
  · rw [if_neg h1] at h ⊢
    by_cases h2 : truthyStr s.doi
    · rw [if_pos h2] at h
      rw [pyStartsWith_doi_title] at h
      simp at h
    · rw [if_neg h2]

/-- First-occurrence-by-canonical-id filtering with a seen set: the dedup
loop without its (unreachable) title-hash branch. -/
def keepFirstGo (md5hex : String → String) :
    List StudyResult → List String → List StudyResult
  | [], _ => []
  | s :: rest, seen =>
    let uid := get_unique_id md5hex s
    if seen.contains uid then keepFirstGo md5hex rest seen
    else s :: keepFirstGo md5hex rest (uid :: seen)

/-- Invariant tying the two state sets of the dedup loop: every recorded
title hash has its derived unique id recorded as seen. -/
def dedupInv (seen title_hashes : List String) : Prop :=
  ∀ th ∈ title_hashes, ("title_" ++ pyTake th 12) ∈ seen

/-- Under the invariant, the title-hash branch of the dedup loop never
fires, so the loop computes plain first-occurrence-by-id filtering. -/
theorem dedup_go_eq_keepFirstGo (md5hex : String → String) :
    ∀ (l : List StudyResult) (seen title_hashes : List String),
      dedupInv seen title_hashes →
      _deduplicate_studies_go md5hex l seen title_hashes = keepFirstGo md5hex l seen := by
  intro l
  induction l with
  | nil => intro seen th hinv; rfl
  | cons s rest ih =>
    intro seen th hinv
    unfold _deduplicate_studies_go keepFirstGo
    by_cases hc : seen.contains (get_unique_id md5hex s)
    · simp only [hc, if_pos]
      exact ih seen th hinv
    · simp only [hc, Bool.false_eq_true, if_neg, not_false_eq_true]
      by_cases ht : pyStartsWith (get_unique_id md5hex s) "title_"
      · rw [if_pos ht]
        have huid := uid_title_form md5hex s ht
        have hth : th.contains (md5hex (pyLower s.title)) = false := by
          by_contra hcon
          simp only [Bool.not_eq_false] at hcon
          have hmem := List.mem_of_elem_eq_true hcon
          have := hinv _ hmem
          rw [← huid] at this
          exact hc (List.elem_eq_true_of_mem this)
        rw [hth]
        simp only [Bool.false_eq_true, if_neg, not_false_eq_true]
        congr 1
        apply ih
        intro t htmem
        rcases List.mem_cons.mp htmem with h | h
        · subst h
          rw [← huid]
          exact List.mem_cons_self _ _
        · exact List.mem_cons_of_mem _ (hinv t h)
      · rw [if_neg ht]
        congr 1
        apply ih
        intro t htmem
        exact List.mem_cons_of_mem _ (hinv t htmem)

/-- The dedup entry point equals first-occurrence filtering from empty
state. -/
theorem dedup_eq_keepFirstGo (md5hex : String → String) (l : List StudyResult) :
    _deduplicate_studies md5hex l = keepFirstGo md5hex l [] := by
  apply dedup_go_eq_keepFirstGo
  intro t ht
  simp at ht

theorem keepFirstGo_uid_not_seen (md5hex : String → String) :
    ∀ (l : List StudyResult) (seen : List String) (y : StudyResult),
      y ∈ keepFirstGo md5hex l seen → get_unique_id md5hex y ∉ seen := by
  intro l
  induction l with
  | nil => intro seen y h; simp [keepFirstGo] at h
  | cons s rest ih =>
    intro seen y h
    unfold keepFirstGo at h
    by_cases hc : seen.contains (get_unique_id md5hex s)
    · simp only [hc, if_pos] at h
      exact ih seen y h
    · simp only [hc, Bool.false_eq_true, if_neg, not_false_eq_true] at h
      rcases List.mem_cons.mp h with h | h
      · subst h
        intro hmem
        exact hc (List.elem_eq_true_of_mem hmem)
      · have := ih _ y h
        intro hmem
        exact this (List.mem_cons_of_mem _ hmem)

theorem keepFirstGo_uids_nodup (md5hex : String → String) :
    ∀ (l : List StudyResult) (seen : List String),
      ((keepFirstGo md5hex l seen).map (get_unique_id md5hex)).Nodup := by
  intro l
  induction l with
  | nil => intro seen; simp [keepFirstGo]
  | cons s rest ih =>
    intro seen
    unfold keepFirstGo
    by_cases hc : seen.contains (get_unique_id md5hex s)
    · simp only [hc, if_pos]
      exact ih seen
    · simp only [hc, Bool.false_eq_true, if_neg, not_false_eq_true, List.map_cons]
      refine List.nodup_cons.mpr ⟨?_, ih _⟩
      intro hmem
      rcases List.mem_map.mp hmem with ⟨y, hy, hyeq⟩
      have := keepFirstGo_uid_not_seen md5hex rest _ y hy
      rw [hyeq] at this
      exact this (List.mem_cons_self _ _)

theorem keepFirstGo_sublist (md5hex : String → String) :
    ∀ (l : List StudyResult) (seen : List String),
      (keepFirstGo md5hex l seen).Sublist l := by
  intro l
  induction l with
  | nil => intro seen; simp [keepFirstGo]
  | cons s rest ih =>
    intro seen
    unfold keepFirstGo
    by_cases hc : seen.contains (get_unique_id md5hex s)
    · simp only [hc, if_pos]
      exact List.Sublist.cons s (ih seen)
    · simp only [hc, Bool.false_eq_true, if_neg, not_false_eq_true]
      exact List.Sublist.cons₂ s (ih _)

theorem keepFirstGo_covers (md5hex : String → String) :
    ∀ (l : List StudyResult) (seen : List String) (x : StudyResult), x ∈ l →
      get_unique_id md5hex x ∈ seen ∨
      ∃ y ∈ keepFirstGo md5hex l seen, get_unique_id md5hex y = get_unique_id md5hex x := by
  intro l
  induction l with
  | nil => intro seen x h; simp at h
  | cons s rest ih =>
    intro seen x hx
    unfold keepFirstGo
    by_cases hc : seen.contains (get_unique_id md5hex s)
    · simp only [hc, if_pos]
      rcases List.mem_cons.mp hx with h | h
      · subst h
        exact Or.inl (List.mem_of_elem_eq_true hc)
      · exact ih seen x h
    · simp only [hc, Bool.false_eq_true, if_neg, not_false_eq_true]
      rcases List.mem_cons.mp hx with h | h
      · subst h
        exact Or.inr ⟨x, List.mem_cons_self _ _, rfl⟩
      · rcases ih (get_unique_id md5hex s :: seen) x h with hmem | ⟨y, hy, hyeq⟩
        · rcases List.mem_cons.mp hmem with hmem | hmem
          · exact Or.inr ⟨s, List.mem_cons_self _ _, hmem.symm⟩
          · exact Or.inl hmem
        · exact Or.inr ⟨y, List.mem_cons_of_mem _ hy, hyeq⟩

theorem keepFirstGo_first_occurrence (md5hex : String → String) :
    ∀ (l : List StudyResult) (seen : List String) (pre : List StudyResult) (y : StudyResult)
      (post : List StudyResult),
      keepFirstGo md5hex l seen = pre ++ y :: post →
      ∃ p q, l = p ++ y :: q ∧
        ∀ z ∈ p, get_unique_id md5hex z = get_unique_id md5hex y →
          get_unique_id md5hex z ∈ seen := by
  intro l
  induction l with
  | nil =>
    intro seen pre y post h
    simp [keepFirstGo] at h
  | cons s rest ih =>
    intro seen pre y post h
    unfold keepFirstGo at h
    by_cases hc : seen.contains (get_unique_id md5hex s)
    · simp only [hc, if_pos] at h
      rcases ih seen pre y post h with ⟨p, q, hl, hprop⟩
      refine ⟨s :: p, q, by rw [hl]; rfl, ?_⟩
      intro z hz heq
      rcases List.mem_cons.mp hz with hz | hz
      · subst hz
        exact List.mem_of_elem_eq_true hc
      · exact hprop z hz heq
    · simp only [hc, Bool.false_eq_true, if_neg, not_false_eq_true] at h
      cases pre with
      | nil =>
        simp only [List.nil_append, List.cons.injEq] at h
        rcases h with ⟨h1, _⟩
        subst h1
        exact ⟨[], rest, rfl, by simp⟩
      | cons a pre' =>
        simp only [List.cons_append, List.cons.injEq] at h
        rcases h with ⟨h1, h2⟩
        subst h1
        have hymem : y ∈ keepFirstGo md5hex rest (get_unique_id md5hex s :: seen) := by
          rw [h2]
          simp
        have hynot := keepFirstGo_uid_not_seen md5hex rest _ y hymem
        have hyne : get_unique_id md5hex y ≠ get_unique_id md5hex s := by
          intro hcon
          exact hynot (by rw [hcon]; exact List.mem_cons_self _ _)
        rcases ih _ pre' y post h2 with ⟨p, q, hl, hprop⟩
        refine ⟨s :: p, q, by rw [hl]; rfl, ?_⟩
        intro z hz heq
        rcases List.mem_cons.mp hz with hz | hz
        · subst hz
          exact absurd heq.symm hyne
        · rcases List.mem_cons.mp (hprop z hz heq) with hmem | hmem
          · rw [heq] at hmem
            exact absurd hmem hyne
          · exact hmem

/-! Claim theorems. -/

/-- A record returned by the C1 mock adapter. -/
def c1_record : StudyResult := mkStudyResult
  { title := "Testolone trial", abstract := "", authors := [], journal := "",
    publication_year := none, pmid := some "9", doi := none }

/-- Mock adapter behaviour for C1: a single record, returned only for the
search term "Testolone" (the fourth length-sorted variation of "RAD-140")
on PubMed, independently of the max-results argument. -/
def c1_mock : AdapterBehavior := fun db term _ =>
  if db == "pubmed" && term == "Testolone" then [c1_record] else []

/-- C1 counterexample: with the same fixed adapter behaviour, the same
compound name and the same max-results, the priority-sequential and the
bounded-concurrent orchestrators produce different final ranked sets —
the parallel strategy only queries each adapter with the first three search
variations, so a record reachable only via the fourth variation is lost. -/
theorem C1_strategies_differ :
    search_comprehensive idHash c1_mock "RAD-140" 50 5 ≠
      search_parallel idHash c1_mock "RAD-140" 50 := by
  decide

theorem flatten_flatten_map {α : Type} (l : List (List (List α))) :
    l.flatten.flatten = (l.map List.flatten).flatten := by
  induction l with
  | nil => simp
  | cons x xs ih => simp [ih]

theorem search_db_go_no_break (search : AdapterBehavior) (db : String) (mpd : Nat) :
    ∀ (terms : List String) (acc : List StudyResult),
      (acc ++ (terms.map (fun t => search db t mpd)).flatten).length < mpd * 2 →
      search_db_go search db mpd terms acc
        = acc ++ (terms.map (fun t => search db t mpd)).flatten := by
  intro terms
  induction terms with
  | nil => intro acc h; simp [search_db_go]
  | cons t ts ih =>
    intro acc h
    rw [List.map_cons, List.flatten_cons] at h ⊢
    unfold search_db_go
    have hlt : ¬ (mpd * 2 ≤ (acc ++ search db t mpd).length) := by
      simp only [List.length_append, List.length_flatten] at h ⊢
      omega
    rw [if_neg hlt]
    rw [ih (acc ++ search db t mpd) (by rw [List.append_assoc]; exact h)]
    rw [List.append_assoc]

theorem search_all_go_no_break (search : AdapterBehavior) (terms : List String)
    (mr mpd : Nat) :
    ∀ (dbs : List String) (acc : List StudyResult),
      (acc ++ (dbs.map (fun db => search_db_go search db mpd terms [])).flatten).length < mr →
      search_all_go search terms mr mpd dbs acc
        = acc ++ (dbs.map (fun db => search_db_go search db mpd terms [])).flatten := by
  intro dbs
  induction dbs with
  | nil => intro acc h; simp [search_all_go]
  | cons db dbs' ih =>
    intro acc h
    rw [List.map_cons, List.flatten_cons] at h ⊢
    unfold search_all_go
    have hlt : ¬ (mr ≤ (acc ++ search_db_go search db mpd terms []).length) := by
      simp only [List.length_append, List.length_flatten] at h ⊢
      omega
    rw [if_neg hlt]
    rw [ih (acc ++ search_db_go search db mpd terms []) (by rw [List.append_assoc]; exact h)]
    rw [List.append_assoc]

/-- C1 amended: the two orchestrators agree when no truncation point is
reached — the synonym expansion yields at most three terms (the parallel
strategy only submits the first three), the adapter behaviour does not
depend on the max-results argument, no per-database threshold
(2·min_per_database) is reached mid-scan, and the global max-results target
is not reached mid-scan. In general (see the counterexample) they differ. -/
theorem C1_strategies_agree (md5hex : String → String) (search : AdapterBehavior)
    (c : String) (mr mpd : Nat)
    (hfix : ∀ db t n m, search db t n = search db t m)
    (hterms : (get_search_variations c).length ≤ 3)
    (hdb : ∀ db ∈ database_priority,
      (((get_search_variations c).map (fun t => search db t mpd)).flatten).length < mpd * 2)
    (htotal : ((database_priority.map
      (fun db => ((get_search_variations c).map (fun t => search db t mpd)).flatten)).flatten).length
        < mr) :
    search_comprehensive md5hex search c mr mpd = search_parallel md5hex search c mr := by
  have hdbeq : ∀ db ∈ database_priority,
      search_db_go search db mpd (get_search_variations c) []
        = ((get_search_variations c).map (fun t => search db t mpd)).flatten := by
    intro db hdbm
    have := search_db_go_no_break search db mpd (get_search_variations c) []
      (by simpa using hdb db hdbm)
    simpa using this
  have hmapeq : database_priority.map (fun db => search_db_go search db mpd (get_search_variations c) [])
      = database_priority.map
        (fun db => ((get_search_variations c).map (fun t => search db t mpd)).flatten) :=
    List.map_congr_left hdbeq
  have hall : search_all_go search (get_search_variations c) mr mpd database_priority []
      = (database_priority.map
        (fun db => ((get_search_variations c).map (fun t => search db t mpd)).flatten)).flatten := by
    have := search_all_go_no_break search (get_search_variations c) mr mpd database_priority []
      (by rw [List.nil_append, hmapeq]; exact htotal)
    rw [List.nil_append, hmapeq] at this
    exact this
  have hterms3 : (get_search_variations c).take 3 = get_search_variations c :=
    List.take_of_length_le hterms
  have hpar : (((database_priority.map
        (fun db => ((get_search_variations c).take 3).map (fun t => (db, t)))).flatten.map
          (fun p => _search_single search p.1 p.2)).flatten)
      = (database_priority.map
        (fun db => ((get_search_variations c).map (fun t => search db t mpd)).flatten)).flatten := by
    rw [hterms3]
    rw [List.map_flatten]
    rw [flatten_flatten_map]
    rw [List.map_map, List.map_map]
    apply congrArg List.flatten
    apply List.map_congr_left
    intro db _
    simp only [Function.comp]
    rw [List.map_map]
    apply congrArg List.flatten
    apply List.map_congr_left
    intro t _
    simp only [Function.comp]
    show _search_single search db t = search db t mpd
    unfold _search_single
    exact hfix db t 10 mpd
  simp only [search_comprehensive, search_parallel]
  rw [hall, hpar]

/-- Mock adapter behaviour for the C1 witness: one record for the single
variation of "xy" on PubMed, ignoring the max-results argument. -/
def c1w_mock : AdapterBehavior := fun db term _ =>
  if db == "pubmed" && term == "xy" then [c1_record] else []

/-- Witness for C1 amended: a concrete behaviour satisfying all
hypotheses, on which both strategies agree. -/
theorem C1_strategies_agree_witness :
    search_comprehensive idHash c1w_mock "xy" 50 5 = search_parallel idHash c1w_mock "xy" 50 :=
  C1_strategies_agree idHash c1w_mock "xy" 50 5 (fun _ _ _ _ => rfl) (by decide)
    (by decide) (by decide)

/-- C9: the sequential pipeline is a pure function of the mocked adapter
behaviour and the digest — two runs over extensionally identical adapter
responses produce identical ranked output lists and identical EvidenceGrade
values. -/
theorem C9_pipeline_deterministic (md5hex1 md5hex2 : String → String)
    (s1 s2 : AdapterBehavior) (c : String) (mr mpd : Nat)
    (hh : ∀ x, md5hex1 x = md5hex2 x)
    (hs : ∀ db t n, s1 db t n = s2 db t n) :
    search_comprehensive md5hex1 s1 c mr mpd = search_comprehensive md5hex2 s2 c mr mpd ∧
    grade_evidence ((search_comprehensive md5hex1 s1 c mr mpd).map studyOfResult) =
      grade_evidence ((search_comprehensive md5hex2 s2 c mr mpd).map studyOfResult) := by
  have h1 : md5hex1 = md5hex2 := funext hh
  have h2 : s1 = s2 := funext fun db => funext fun t => funext fun n => hs db t n
  subst h1
  subst h2
  exact ⟨rfl, rfl⟩

/-- Mock adapter behaviour for the C9 witness. -/
def c9_mock : AdapterBehavior := fun db term _ =>
  if db == "pubmed" && term == "Creatine" then [c1_record] else []

/-- Witness for C9 at a concrete behaviour, run twice. -/
theorem C9_pipeline_deterministic_witness :
    search_comprehensive idHash c9_mock "Creatine" 50 5 =
      search_comprehensive idHash c9_mock "Creatine" 50 5 ∧
    grade_evidence ((search_comprehensive idHash c9_mock "Creatine" 50 5).map studyOfResult) =
      grade_evidence ((search_comprehensive idHash c9_mock "Creatine" 50 5).map studyOfResult) :=
  C9_pipeline_deterministic idHash idHash c9_mock c9_mock "Creatine" 50 5
    (fun _ => rfl) (fun _ _ _ => rfl)

/-- Two records sharing a DOI, the first also carrying a PMID. -/
def c10_first : StudyResult := mkStudyResult
  { title := "Ostarine effects on muscle", abstract := "", authors := [], journal := "",
    publication_year := none, pmid := some "111", doi := some "10.1/x" }

/-- A record with the same DOI as `c10_first` but no PMID. -/
def c10_second : StudyResult := mkStudyResult
  { title := "Ostarine in elderly", abstract := "", authors := [], journal := "",
    publication_year := none, pmid := none, doi := some "10.1/x" }

/-- C10: the deduplicator never merges on DOI when a PMID is present — on an
input holding a record with both pmid and doi followed by a record with the
same doi and no pmid, both records are kept, because the first record's
canonical id is pmid-derived, the second's is doi-derived, and the two are
never cross-checked (for any digest function). -/
theorem C10_no_doi_merge_when_pmid_present (md5hex : String → String) :
    _deduplicate_studies md5hex [c10_first, c10_second] = [c10_first, c10_second] := rfl

/-- C6: the shared classifier is a first-match-wins waterfall — whenever the
lowercased `title + " " + abstract` contains one of the meta-analysis
phrases, the result is decided by the first rule alone: "Systematic Review
with Meta-Analysis" when the text also contains "systematic", otherwise
"Meta-Analysis", regardless of any lower-priority rule also matching. -/
theorem C6_meta_rule_wins (s : Study)
    (h : strContains (pyLower (s.title ++ " " ++ s.abstract)) "meta-analysis" = true ∨
         strContains (pyLower (s.title ++ " " ++ s.abstract)) "meta analysis" = true ∨
         strContains (pyLower (s.title ++ " " ++ s.abstract)) "metanalysis" = true) :
    _classify_study_type_advanced s =
      (if strContains (pyLower (s.title ++ " " ++ s.abstract)) "systematic" = true
       then "Systematic Review with Meta-Analysis" else "Meta-Analysis") := by
  unfold _classify_study_type_advanced _classify_study_type_advanced_text
  rcases h with h | h | h <;> simp [h]

/-- Witness for C6 at a concrete record: a title containing "metanalysis"
and an RCT phrase is still classified by the first rule. -/
theorem C6_meta_rule_wins_witness :
    _classify_study_type_advanced
      ⟨"Metanalysis of randomized controlled trial data", "", "", none⟩ = "Meta-Analysis" := by
  have h := C6_meta_rule_wins
    ⟨"Metanalysis of randomized controlled trial data", "", "", none⟩
    (Or.inr (Or.inr (by decide)))
  rw [h]
  decide

/-- C5: for every non-empty list of records all classified "Meta-Analysis"
by the waterfall, with at least three records, the grader returns grade "A"
with confidence 0.95 via the first row of the decision table. -/
theorem C5_three_meta_analyses_grade_A (l : List Study)
    (hall : ∀ s ∈ l, _classify_study_type_advanced s = "Meta-Analysis")
    (hlen : 3 ≤ l.length) :
    (grade_evidence l).grade = "A" ∧ (grade_evidence l).confidence = (0.95 : ℚ) := by
  have hne : l.isEmpty = false := by
    cases l with
    | nil => simp at hlen
    | cons a t => simp
  have hcnt : _count_study_types l "Meta-Analysis" = l.length := by
    unfold _count_study_types
    apply List.countP_eq_length.mpr
    intro s hs
    simp [hall s hs]
  have hma : 3 ≤ _count_study_types l "Meta-Analysis" +
      _count_study_types l "Systematic Review with Meta-Analysis" := by
    omega
  have hdet : _determine_advanced_grade (_count_study_types l)
      (_calculate_advanced_quality_score l) l.length = ("A", (0.95 : ℚ)) := by
    unfold _determine_advanced_grade
    rw [if_pos (Or.inl hma)]
  unfold grade_evidence
  rw [hne]
  simp only [Bool.false_eq_true, if_false, hdet]
  simp

/-- C4 counterexample: the whitespace-only compound name " " is a non-empty
string, yet the expander output is empty and in particular does not contain
the trimmed form of the input. -/
theorem C4_whitespace_input_loses_trim :
    (" " : String) ≠ "" ∧ pyStrip " " ∉ get_search_variations " " := by
  exact ⟨by decide, by decide⟩

/-- C4 amended: for every compound name whose trimmed form is non-empty, the
expander output has length at most 8, contains the trimmed input, has no
duplicate entries and is sorted ascending by string length. -/
theorem C4_variations_wellformed (x : String) (hx : pyStrip x ≠ "") :
    (get_search_variations x).length ≤ 8 ∧
    pyStrip x ∈ get_search_variations x ∧
    (get_search_variations x).Nodup ∧
    (get_search_variations x).Pairwise (fun a b => a.length ≤ b.length) := by
  have hgv : get_search_variations x = (stableSort lenLe (dedupFirst
      ((([pyStrip x] ++ synonymsOf x ++ _generate_algorithmic_variations x).map pyStrip).filter
        (fun v => !(v == ""))))).take 8 := rfl
  have htot : ∀ a b : String, lenLe a b = true ∨ lenLe b a = true := by
    intro a b
    unfold lenLe
    rcases Nat.le_total a.length b.length with h | h
    · left; simpa using h
    · right; simpa using h
  have htrans : ∀ a b c : String, lenLe a b = true → lenLe b c = true → lenLe a c = true := by
    intro a b c hab hbc
    unfold lenLe at hab hbc ⊢
    simp only [decide_eq_true_eq] at hab hbc ⊢
    omega
  refine ⟨?_, ?_, ?_, ?_⟩
  · rw [hgv, List.length_take]
    exact min_le_left _ _
  · by_cases hfind : synonym_db.find? (fun p => p.1 == x) = none
    · have hsyn : synonymsOf x = [] := by unfold synonymsOf; rw [hfind]
      have hmemc : pyStrip x ∈
          (([pyStrip x] ++ synonymsOf x ++ _generate_algorithmic_variations x).map pyStrip).filter
            (fun v => !(v == "")) := by
        apply List.mem_filter.mpr
        refine ⟨List.mem_map.mpr ⟨pyStrip x, by simp, pyStrip_idem x⟩, by simpa using hx⟩
      have hmemdd := mem_dedupFirstAux_of_mem _ [] _ hmemc (by simp)
      have hlen : (dedupFirst
          ((([pyStrip x] ++ synonymsOf x ++ _generate_algorithmic_variations x).map pyStrip).filter
            (fun v => !(v == "")))).length ≤ 8 := by
        refine Nat.le_trans (dedupFirstAux_length_le _ []) ?_
        refine Nat.le_trans (List.length_filter_le _ _) ?_
        rw [List.length_map, hsyn]
        have halgo := algo_variations_length_le x
        simp only [List.append_nil, List.nil_append, List.length_append, List.length_cons,
          List.length_nil]
        omega
      have hsortlen : (stableSort lenLe (dedupFirst
          ((([pyStrip x] ++ synonymsOf x ++ _generate_algorithmic_variations x).map pyStrip).filter
            (fun v => !(v == ""))))).length ≤ 8 := by
        rw [(stableSort_perm lenLe _).length_eq]
        exact hlen
      rw [hgv, List.take_of_length_le hsortlen]
      exact (stableSort_perm lenLe _).mem_iff.mpr hmemdd
    · rcases Option.ne_none_iff_exists'.mp hfind with ⟨pair, hp⟩
      have hkeymem := List.mem_of_find?_eq_some hp
      have hkey : pair.1 = x := by
        have := List.find?_some hp
        simpa using this
      fin_cases hkeymem <;> (simp at hkey; subst hkey; decide)
  · rw [hgv]
    apply List.Nodup.sublist (List.take_sublist 8 _)
    apply ((stableSort_perm lenLe _).nodup_iff).mpr
    exact dedupFirstAux_nodup _ []
  · rw [hgv]
    apply List.Pairwise.sublist (List.take_sublist 8 _)
    have hp := stableSort_pairwise lenLe htot htrans
      (dedupFirst ((([pyStrip x] ++ synonymsOf x ++ _generate_algorithmic_variations x).map
        pyStrip).filter (fun v => !(v == ""))))
    refine hp.imp ?_
    intro a b h
    unfold lenLe at h
    simpa using h

/-- Witness for C4 amended at the compound name "RAD-140". -/
theorem C4_variations_wellformed_witness :
    (get_search_variations "RAD-140").length ≤ 8 ∧
    pyStrip "RAD-140" ∈ get_search_variations "RAD-140" ∧
    (get_search_variations "RAD-140").Nodup ∧
    (get_search_variations "RAD-140").Pairwise (fun a b => a.length ≤ b.length) :=
  C4_variations_wellformed "RAD-140" (by decide)

/-- A ClinicalTrials.gov response with no protocol section (every field
access in the parser is defaulted, so parsing still succeeds). -/
def c8_ct_empty : CTStudyJson := ⟨none⟩

/-- C8 counterexample: a ClinicalTrials.gov study without titles parses into
a record having no pmid, no doi and an empty title — the claimed
at-least-one-identifier invariant is not enforced by the parse step. -/
theorem C8_ct_record_without_identifier :
    _parse_clinical_trial c8_ct_empty =
      some { title := "", abstract := "", authors := [], journal := "ClinicalTrials.gov",
             publication_year := none, pmid := none, doi := none,
             source_database := "ClinicalTrials.gov", study_type := "Clinical Trial",
             url := none, citations_count := none } ∧
    (_parse_clinical_trial c8_ct_empty).map
        (fun r => truthyStr r.pmid || truthyStr r.doi || !(r.title == "")) = some false := by
  exact ⟨by decide, by decide⟩

/-- Raw title chosen by the ClinicalTrials parser (the `or` of the two title
fields) before record construction. -/
def ctRawTitle (study : CTStudyJson) : String :=
  let idm := (study.protocolSection.getD ⟨none, none⟩).identificationModule.getD ⟨none, none, none⟩
  if idm.officialTitle.getD "" == "" then idm.briefTitle.getD "" else idm.officialTitle.getD ""

/-- Raw abstract read by the ClinicalTrials parser. -/
def ctRawAbstract (study : CTStudyJson) : String :=
  ((study.protocolSection.getD ⟨none, none⟩).descriptionModule.getD ⟨none⟩).briefSummaryTextMd.getD ""

/-- Raw joined title of a CrossRef item. -/
def crRawTitle (item : CrossRefItem) : String := joinSpace (item.title.getD [])

/-- Raw abstract of a CrossRef item. -/
def crRawAbstract (item : CrossRefItem) : String := item.abstract.getD ""

/-- Raw joined journal of a CrossRef item. -/
def crRawJournal (item : CrossRefItem) : String := joinSpace (item.containerTitle.getD [])

/-- C8 amended: every record produced by the cited parse steps has its
title, abstract and journal HTML-stripped, whitespace-normalised and trimmed
at construction (they equal `_clean_text` of the raw provider values); the
at-least-one-of-pmid/doi/non-empty-title property is not enforced by the
parsers and holds only when the provider supplies a truthy identifier or a
title with non-empty cleaned text. -/
theorem C8_parsed_fields_cleaned (ct : CTStudyJson) (cr : CrossRefItem) (r1 r2 : StudyResult)
    (h1 : _parse_clinical_trial ct = some r1)
    (h2 : _parse_crossref_result cr = some r2) :
    (r1.title = _clean_text (ctRawTitle ct) ∧ r1.abstract = _clean_text (ctRawAbstract ct) ∧
     r1.journal = _clean_text "ClinicalTrials.gov" ∧
     (_clean_text (ctRawTitle ct) ≠ "" →
        truthyStr r1.pmid = true ∨ truthyStr r1.doi = true ∨ r1.title ≠ "")) ∧
    (r2.title = _clean_text (crRawTitle cr) ∧ r2.abstract = _clean_text (crRawAbstract cr) ∧
     r2.journal = _clean_text (crRawJournal cr) ∧
     ((truthyStr cr.DOI = true ∨ _clean_text (crRawTitle cr) ≠ "") →
        truthyStr r2.pmid = true ∨ truthyStr r2.doi = true ∨ r2.title ≠ "")) := by
  constructor
  · unfold _parse_clinical_trial at h1
    simp only [Option.some.injEq] at h1
    subst h1
    refine ⟨rfl, rfl, rfl, ?_⟩
    intro hne
    right; right
    exact hne
  · unfold _parse_crossref_result at h2
    split at h2
    · simp at h2
    · simp only [Option.some.injEq] at h2
      subst h2
      refine ⟨rfl, rfl, rfl, ?_⟩
      intro hid
      rcases hid with hid | hid
      · right; left
        simpa [mkStudyResult] using hid
      · right; right
        exact hid

/-- A concrete well-formed ClinicalTrials.gov study JSON. -/
def c8_ct_demo : CTStudyJson :=
  ⟨some ⟨some ⟨some "NCT1", some "Trial of curcumin", none⟩, some ⟨some "A study."⟩⟩⟩

/-- Its parsed record. -/
def c8_ct_demo_rec : StudyResult :=
  { title := "Trial of curcumin", abstract := "A study.", authors := [],
    journal := "ClinicalTrials.gov", publication_year := none, pmid := none, doi := none,
    source_database := "ClinicalTrials.gov", study_type := "Clinical Trial",
    url := some "https://clinicaltrials.gov/study/NCT1", citations_count := none }

/-- A concrete well-formed CrossRef item. -/
def c8_cr_demo : CrossRefItem :=
  ⟨some ["Curcumin", "study"], some "Abs", some [⟨some "A", some "B"⟩, ⟨none, some "C"⟩],
   some ["J Nutr"], some "10.1/x", none⟩

/-- Its parsed record. -/
def c8_cr_demo_rec : StudyResult :=
  { title := "Curcumin study", abstract := "Abs", authors := ["A B"], journal := "J Nutr",
    publication_year := none, pmid := none, doi := some "10.1/x",
    source_database := "CrossRef", study_type := "Unknown",
    url := some "https://doi.org/10.1/x", citations_count := none }

/-- Witness for C8 amended at the two concrete provider responses. -/
theorem C8_parsed_fields_cleaned_witness :
    (c8_ct_demo_rec.title = _clean_text (ctRawTitle c8_ct_demo) ∧
     c8_ct_demo_rec.abstract = _clean_text (ctRawAbstract c8_ct_demo) ∧
     c8_ct_demo_rec.journal = _clean_text "ClinicalTrials.gov" ∧
     (_clean_text (ctRawTitle c8_ct_demo) ≠ "" →
        truthyStr c8_ct_demo_rec.pmid = true ∨ truthyStr c8_ct_demo_rec.doi = true ∨
        c8_ct_demo_rec.title ≠ "")) ∧
    (c8_cr_demo_rec.title = _clean_text (crRawTitle c8_cr_demo) ∧
     c8_cr_demo_rec.abstract = _clean_text (crRawAbstract c8_cr_demo) ∧
     c8_cr_demo_rec.journal = _clean_text (crRawJournal c8_cr_demo) ∧
     ((truthyStr c8_cr_demo.DOI = true ∨ _clean_text (crRawTitle c8_cr_demo) ≠ "") →
        truthyStr c8_cr_demo_rec.pmid = true ∨ truthyStr c8_cr_demo_rec.doi = true ∨
        c8_cr_demo_rec.title ≠ "")) :=
  C8_parsed_fields_cleaned c8_ct_demo c8_cr_demo c8_ct_demo_rec c8_cr_demo_rec
    (by decide) (by decide)

/-- A PubMed article whose text matches both "systematic review" (shared
classifier rule 2) and PubMed's own second branch. -/
def c2_article : PubMedArticleFields :=
  { title := "A systematic review of creatine supplementation", abstract := "", authors := [],
    journal := "", pub_year := none, pmid := "42", doi := none }

/-- C2 counterexample: a PubMed-parsed record's study_type comes from
PubMed's own eight-case heuristic, not the shared fifteen-rule waterfall —
on a "systematic review" title the record carries "Meta-Analysis" while the
shared classifier yields "Systematic Review". -/
theorem C2_pubmed_type_not_shared_classifier :
    (_parse_pubmed_article c2_article).study_type = "Meta-Analysis" ∧
    _classify_study_type_advanced (studyOfResult (_parse_pubmed_article c2_article)) =
      "Systematic Review" ∧
    (_parse_pubmed_article c2_article).study_type ≠
      _classify_study_type_advanced (studyOfResult (_parse_pubmed_article c2_article)) := by
  refine ⟨by decide, by decide, by decide⟩

/-- C2 amended: a PubMed-parsed record's study_type is
`_determine_study_type(title, abstract)` — PubMed's own eight-outcome
heuristic over the raw title and abstract, not the shared classifier — and a
Europe PMC-parsed record's study_type is always the dataclass default
"Unknown" (no classification is applied at all). -/
theorem C2_adapter_study_types (a : PubMedArticleFields) (e : EuropePMCResult) :
    (_parse_pubmed_article a).study_type = _determine_study_type a.title a.abstract ∧
    (_parse_europepmc_result e).study_type = "Unknown" ∧
    _determine_study_type a.title a.abstract ∈
      (["Randomized Controlled Trial", "Meta-Analysis", "Cohort Study", "Case-Control Study",
        "Review", "In Vitro Study", "Animal Study", "Observational Study"] : List String) := by
  refine ⟨rfl, rfl, ?_⟩
  unfold _determine_study_type _determine_study_type_text
  split_ifs <;> simp

/-- C3: the deduplicator's output has pairwise-distinct canonical ids, is a
sublist of the input (so relative input order of kept records is preserved),
covers every input canonical id, and each kept record is the first occurrence
(in input order) of its canonical id — and, for title-derived ids, of its
full title hash (for any digest function). -/
theorem C3_dedup_first_occurrence (md5hex : String → String) (l : List StudyResult) :
    ((_deduplicate_studies md5hex l).map (get_unique_id md5hex)).Nodup ∧
    (_deduplicate_studies md5hex l).Sublist l ∧
    (∀ x ∈ l, ∃ y ∈ _deduplicate_studies md5hex l,
      get_unique_id md5hex y = get_unique_id md5hex x) ∧
    (∀ (pre : List StudyResult) (y : StudyResult) (post : List StudyResult),
      _deduplicate_studies md5hex l = pre ++ y :: post →
      ∃ p q, l = p ++ y :: q ∧
        (∀ z ∈ p, get_unique_id md5hex z ≠ get_unique_id md5hex y) ∧
        (pyStartsWith (get_unique_id md5hex y) "title_" = true →
         ∀ z ∈ p, pyStartsWith (get_unique_id md5hex z) "title_" = true →
           md5hex (pyLower z.title) ≠ md5hex (pyLower y.title))) := by
  rw [dedup_eq_keepFirstGo]
  refine ⟨keepFirstGo_uids_nodup md5hex l [], keepFirstGo_sublist md5hex l [], ?_, ?_⟩
  · intro x hx
    rcases keepFirstGo_covers md5hex l [] x hx with hmem | h
    · simp at hmem
    · exact h
  · intro pre y post h
    rcases keepFirstGo_first_occurrence md5hex l [] pre y post h with ⟨p, q, hl, hprop⟩
    refine ⟨p, q, hl, ?_, ?_⟩
    · intro z hz heq
      have := hprop z hz heq
      simp at this
    · intro hty z hz hzty heqhash
      have huidz := uid_title_form md5hex z hzty
      have huidy := uid_title_form md5hex y hty
      have heq : get_unique_id md5hex z = get_unique_id md5hex y := by
        rw [huidz, huidy, heqhash]
      have h2 := hprop z hz heq
      simp at h2

/-- Two records for the C3 witness: same doi, one with a pmid. -/
def c3_first : StudyResult := mkStudyResult
  { title := "Creatine and strength", abstract := "", authors := [], journal := "",
    publication_year := none, pmid := some "7", doi := some "10.2/y" }

/-- Second record for the C3 witness. -/
def c3_second : StudyResult := mkStudyResult
  { title := "Creatine and memory", abstract := "", authors := [], journal := "",
    publication_year := none, pmid := none, doi := some "10.2/y" }

/-- Witness for C3: the property evaluated at a concrete two-record input. -/
theorem C3_dedup_first_occurrence_witness :
    ((_deduplicate_studies idHash [c3_first, c3_second]).map (get_unique_id idHash)).Nodup ∧
    (_deduplicate_studies idHash [c3_first, c3_second]).Sublist [c3_first, c3_second] ∧
    (∀ x ∈ [c3_first, c3_second], ∃ y ∈ _deduplicate_studies idHash [c3_first, c3_second],
      get_unique_id idHash y = get_unique_id idHash x) ∧
    (∀ (pre : List StudyResult) (y : StudyResult) (post : List StudyResult),
      _deduplicate_studies idHash [c3_first, c3_second] = pre ++ y :: post →
      ∃ p q, [c3_first, c3_second] = p ++ y :: q ∧
        (∀ z ∈ p, get_unique_id idHash z ≠ get_unique_id idHash y) ∧
        (pyStartsWith (get_unique_id idHash y) "title_" = true →
         ∀ z ∈ p, pyStartsWith (get_unique_id idHash z) "title_" = true →
           idHash (pyLower z.title) ≠ idHash (pyLower y.title))) :=
  C3_dedup_first_occurrence idHash [c3_first, c3_second]

/-- C7: for two records identical in every score-relevant field except that
the compound name occurs (case-insensitively) in the title of one and not
the other, the title-matching record scores at least 10 points higher, and
the descending stable sort of `_rank_studies` never places it after the
other. -/
theorem C7_title_match_ranks_no_lower (compound_name : String) (r1 r2 : StudyResult)
    (habs : r1.abstract = r2.abstract)
    (hty : r1.study_type = r2.study_type)
    (hsrc : r1.source_database = r2.source_database)
    (hcit : r1.citations_count = r2.citations_count)
    (hyear : r1.publication_year = r2.publication_year)
    (ht1 : strContains (pyLower r1.title) (pyLower compound_name) = true)
    (ht2 : strContains (pyLower r2.title) (pyLower compound_name) = false) :
    calculate_relevance_score compound_name r2 + 10 ≤
      calculate_relevance_score compound_name r1 ∧
    ∀ (l pre mid post : List StudyResult),
      _rank_studies l compound_name ≠ pre ++ r2 :: (mid ++ r1 :: post) := by
  have hscore : calculate_relevance_score compound_name r2 + 10 ≤
      calculate_relevance_score compound_name r1 := by
    unfold calculate_relevance_score
    rw [habs, hty, hsrc, hcit, hyear]
    simp only [ht1, ht2, if_true, if_false, Bool.false_eq_true]
    linarith
  refine ⟨hscore, ?_⟩
  intro l pre mid post heq
  have htot : ∀ a b : StudyResult,
      decide (calculate_relevance_score compound_name b ≤ calculate_relevance_score compound_name a)
        = true ∨
      decide (calculate_relevance_score compound_name a ≤ calculate_relevance_score compound_name b)
        = true := by
    intro a b
    rcases le_total (calculate_relevance_score compound_name b)
        (calculate_relevance_score compound_name a) with h | h
    · left; simpa using h
    · right; simpa using h
  have htrans : ∀ a b c : StudyResult,
      decide (calculate_relevance_score compound_name b ≤ calculate_relevance_score compound_name a)
        = true →
      decide (calculate_relevance_score compound_name c ≤ calculate_relevance_score compound_name b)
        = true →
      decide (calculate_relevance_score compound_name c ≤ calculate_relevance_score compound_name a)
        = true := by
    intro a b c hab hbc
    simp only [decide_eq_true_eq] at hab hbc ⊢
    exact le_trans hbc hab
  have hpair := stableSort_pairwise
    (fun a b =>
      decide (calculate_relevance_score compound_name b ≤ calculate_relevance_score compound_name a))
    htot htrans l
  have heq2 : stableSort
      (fun a b =>
        decide (calculate_relevance_score compound_name b ≤ calculate_relevance_score compound_name a))
      l = pre ++ r2 :: (mid ++ r1 :: post) := heq
  rw [heq2] at hpair
  have h21 : decide (calculate_relevance_score compound_name r1 ≤
      calculate_relevance_score compound_name r2) = true := by
    rcases (List.pairwise_append.mp hpair) with ⟨_, hrest, _⟩
    rcases List.pairwise_cons.mp hrest with ⟨hr2, _⟩
    exact hr2 r1 (by simp)
  simp only [decide_eq_true_eq] at h21
  linarith

/-- A record whose title contains the compound name "foo". -/
def c7_match : StudyResult :=
  ⟨"foo study", "", [], "", none, none, none, "", "Unknown", none, none⟩

/-- The same record except for a title not containing "foo". -/
def c7_nomatch : StudyResult :=
  ⟨"bar", "", [], "", none, none, none, "", "Unknown", none, none⟩

/-- Witness for C7 at the two concrete records (score component). -/
theorem C7_title_match_ranks_no_lower_witness :
    calculate_relevance_score "foo" c7_nomatch + 10 ≤ calculate_relevance_score "foo" c7_match :=
  (C7_title_match_ranks_no_lower "foo" c7_match c7_nomatch rfl rfl rfl rfl rfl
    (by decide) (by decide)).1

/-- Witness for C5: three concrete meta-analysis records. -/
theorem C5_three_meta_analyses_grade_A_witness :
    (grade_evidence
      [⟨"Meta-analysis of creatine", "", "", none⟩,
       ⟨"Meta-analysis of caffeine", "", "", none⟩,
       ⟨"Meta-analysis of zinc", "", "", none⟩]).grade = "A" ∧
    (grade_evidence
      [⟨"Meta-analysis of creatine", "", "", none⟩,
       ⟨"Meta-analysis of caffeine", "", "", none⟩,
       ⟨"Meta-analysis of zinc", "", "", none⟩]).confidence = (0.95 : ℚ) :=
  C5_three_meta_analyses_grade_A _ (by decide) (by decide)

end Sciena



